import Mathlib

/-
Shallow embedding of the Telegram relay bot (src/sales-bot/bot.py).

The bot keeps two in-memory dicts mapping admin-chat message ids to user
ids (user_message_map, reply_message_map), and four handlers registered on
the aiogram dispatcher in this order: cmd_start (Command "start"),
handle_reply_button (callback data starting with "reply_"),
handle_admin_reply (admin chat and reply_to_message present), and the
catch-all handle_message.  Outbound network calls may raise; each handler
wraps part of its body in try/except.  We model the transport by an oracle
giving, for the n-th outbound call of a run, whether it succeeds and which
message id it returns, and each handler as a pure function producing the
trace of attempted calls, the dict entries it inserts, the next call
counter, and whether an exception escaped the handler.
-/

namespace SalesBot

/-- Python dict with Nat keys and Int values, as an insertion-ordered
association list; `d[k] = v` overwrites in place or appends. -/
abbrev Dict := List (Nat × Int)

/-- Model of Python `d.get(k)`: first binding of the key, if any. -/
def mapGet : Dict → Nat → Option Int
  | [], _ => none
  | p :: ps, k => if p.1 = k then some p.2 else mapGet ps k

/-- Model of Python `d[k] = v`. -/
def mapSet : Dict → Nat → Int → Dict
  | [], k, v => [(k, v)]
  | p :: ps, k, v => if p.1 = k then (k, v) :: ps else p :: mapSet ps k v

theorem mapGet_mapSet_self (m : Dict) (k : Nat) (v : Int) :
    mapGet (mapSet m k v) k = some v := by
  induction m with
  | nil => simp [mapGet, mapSet]
  | cons p ps ih =>
    by_cases h : p.1 = k <;> simp [mapGet, mapSet, h, ih]

theorem mapGet_mapSet_of_ne (m : Dict) (k j : Nat) (v : Int) (h : j ≠ k) :
    mapGet (mapSet m k v) j = mapGet m j := by
  induction m with
  | nil => simp [mapGet, mapSet, Ne.symm h]
  | cons p ps ih =>
    by_cases hp : p.1 = k
    · simp [mapGet, mapSet, hp, Ne.symm h]
    · by_cases hj : p.1 = j <;> simp [mapGet, mapSet, hp, hj, ih, h]

/-- Inserting at a key that is not yet bound preserves every existing binding. -/
theorem mapGet_mapSet_preserve (m : Dict) (k j : Nat) (v w : Int)
    (hfresh : mapGet m k = none) (hj : mapGet m j = some w) :
    mapGet (mapSet m k v) j = some w := by
  rcases eq_or_ne j k with rfl | hne
  · rw [hfresh] at hj; cases hj
  · rw [mapGet_mapSet_of_ne m k j v hne]; exact hj

/-- Model of Python string truthiness composed with `or`:
`pyOr a d` is `a or d` where `a` is an optional string (None and "" are falsy). -/
def pyOr : Option String → String → String
  | some s, d => if s = "" then d else s
  | none, d => d

/-- Decimal digit character, as produced by Python `str` on integers. -/
def digChar (d : Nat) : Char := Char.ofNat (48 + d)

/-- Decimal representation of a natural number, most significant digit first;
models Python `str(n)` for `n ≥ 0`. -/
def natRepr (n : Nat) : List Char :=
  if _h : n < 10 then [digChar n]
  else natRepr (n / 10) ++ [digChar (n % 10)]
  termination_by n
  decreasing_by exact Nat.div_lt_self (by omega) (by omega)

/-- Decimal representation of an integer; models Python `str(i)`. -/
def intRepr (i : Int) : List Char :=
  if i < 0 then '-' :: natRepr i.natAbs else natRepr i.natAbs

/-- Value of an ASCII decimal digit character, if it is one. -/
def charDigit (c : Char) : Option Nat :=
  if 48 ≤ c.toNat ∧ c.toNat ≤ 57 then some (c.toNat - 48) else none

/-- Left fold consuming decimal digits; fails on the first non-digit. -/
def parseNatAux (acc : Nat) : List Char → Option Nat
  | [] => some acc
  | c :: cs =>
    match charDigit c with
    | some d => parseNatAux (10 * acc + d) cs
    | none => none

/-- Model of Python `int(s)` on an unsigned decimal string: at least one
digit, all characters digits. -/
def pyParseNat (l : List Char) : Option Nat :=
  match l with
  | [] => none
  | _ :: _ => parseNatAux 0 l

/-- Model of Python `int(s)` including an optional sign. -/
def pyParseInt (l : List Char) : Option Int :=
  match l with
  | [] => none
  | c :: rest =>
    if c = '-' then (pyParseNat rest).map (fun n => -Int.ofNat n)
    else if c = '+' then (pyParseNat rest).map Int.ofNat
    else (pyParseNat l).map Int.ofNat

/-- Model of Python `s.split("_")`, on the character list of `s`. -/
def splitUnd : List Char → List (List Char)
  | [] => [[]]
  | c :: cs =>
    if c = '_' then [] :: splitUnd cs
    else
      match splitUnd cs with
      | [] => [[c]]
      | f :: r => (c :: f) :: r

theorem charDigit_digChar (d : Nat) (h : d < 10) : charDigit (digChar d) = some d := by
  interval_cases d <;> rfl

theorem natRepr_digits (n : Nat) : ∀ c ∈ natRepr n, 48 ≤ c.toNat ∧ c.toNat ≤ 57 := by
  induction n using Nat.strong_induction_on with
  | _ n ih =>
    rw [natRepr]
    split
    · rename_i h
      intro c hc
      simp only [List.mem_singleton] at hc
      subst hc
      interval_cases n <;> simp [digChar]
    · rename_i h
      intro c hc
      rcases List.mem_append.1 hc with hc1 | hc2
      · exact ih (n / 10) (Nat.div_lt_self (by omega) (by omega)) c hc1
      · simp only [List.mem_singleton] at hc2
        subst hc2
        have hm : n % 10 < 10 := Nat.mod_lt _ (by omega)
        interval_cases hmm : (n % 10) <;> simp [digChar]

theorem natRepr_ne_nil (n : Nat) : natRepr n ≠ [] := by
  rw [natRepr]; split <;> simp

theorem parseNatAux_append (acc : Nat) (l₁ l₂ : List Char) :
    parseNatAux acc (l₁ ++ l₂) =
      (parseNatAux acc l₁).bind (fun a => parseNatAux a l₂) := by
  induction l₁ generalizing acc with
  | nil => simp [parseNatAux]
  | cons c cs ih =>
    simp only [List.cons_append, parseNatAux]
    cases charDigit c with
    | some d => simp [ih]
    | none => simp

theorem parseNatAux_natRepr (n : Nat) :
    ∀ acc, parseNatAux acc (natRepr n) = some (acc * 10 ^ (natRepr n).length + n) := by
  induction n using Nat.strong_induction_on with
  | _ n ih =>
    intro acc
    rw [natRepr]
    split
    · rename_i h
      simp [parseNatAux, charDigit_digChar n h]
      ring
    · rename_i h
      rw [parseNatAux_append, ih (n / 10) (Nat.div_lt_self (by omega) (by omega)) acc]
      have hm : n % 10 < 10 := Nat.mod_lt _ (by omega)
      simp only [Option.some_bind, parseNatAux, charDigit_digChar _ hm]
      simp only [List.length_append, List.length_singleton, pow_succ, ← mul_assoc]
      congr 1
      generalize acc * 10 ^ (natRepr (n / 10)).length = P
      omega

theorem pyParseNat_natRepr (n : Nat) : pyParseNat (natRepr n) = some n := by
  have h := parseNatAux_natRepr n 0
  rcases hnr : natRepr n with _ | ⟨c, cs⟩
  · exact absurd hnr (natRepr_ne_nil n)
  · rw [hnr] at h
    simpa [pyParseNat] using h

theorem pyParseInt_intRepr (i : Int) : pyParseInt (intRepr i) = some i := by
  rw [intRepr]
  split
  · rename_i h
    have hstep : pyParseInt ('-' :: natRepr i.natAbs) =
        (pyParseNat (natRepr i.natAbs)).map (fun n => -Int.ofNat n) := by
      simp [pyParseInt]
    rw [hstep, pyParseNat_natRepr, Option.map_some']
    congr 1
    simp only [Int.ofNat_eq_coe]
    omega
  · rename_i h
    rcases hnr : natRepr i.natAbs with _ | ⟨c, cs⟩
    · exact absurd hnr (natRepr_ne_nil _)
    · have hd : 48 ≤ c.toNat ∧ c.toNat ≤ 57 := by
        refine natRepr_digits i.natAbs c ?_
        rw [hnr]; exact List.mem_cons_self c cs
      have h1 : c ≠ '-' := by
        intro hc; subst hc
        have : ('-' : Char).toNat = 45 := rfl
        omega
      have h2 : c ≠ '+' := by
        intro hc; subst hc
        have : ('+' : Char).toNat = 43 := rfl
        omega
      have hstep : pyParseInt (c :: cs) = (pyParseNat (c :: cs)).map Int.ofNat := by
        simp [pyParseInt, h1, h2]
      rw [hstep, ← hnr, pyParseNat_natRepr, Option.map_some']
      congr 1
      simp only [Int.ofNat_eq_coe]
      omega

theorem splitUnd_ne_nil (l : List Char) : splitUnd l ≠ [] := by
  cases l with
  | nil => simp [splitUnd]
  | cons c cs =>
    by_cases hc : c = '_'
    · simp [splitUnd, hc]
    · simp only [splitUnd, hc, if_false]
      cases h : splitUnd cs <;> simp

theorem splitUnd_no_und (l : List Char) (h : '_' ∉ l) : splitUnd l = [l] := by
  induction l with
  | nil => rfl
  | cons c cs ih =>
    have hc : c ≠ '_' := by intro he; exact h (he ▸ List.mem_cons_self c cs)
    have hcs : '_' ∉ cs := fun hm => h (List.mem_cons_of_mem _ hm)
    simp [splitUnd, hc, ih hcs]

theorem splitUnd_append (l₁ l₂ : List Char) (h : '_' ∉ l₁) :
    splitUnd (l₁ ++ '_' :: l₂) = l₁ :: splitUnd l₂ := by
  induction l₁ with
  | nil => simp [splitUnd]
  | cons c cs ih =>
    have hc : c ≠ '_' := by intro he; exact h (he ▸ List.mem_cons_self c cs)
    have hcs : '_' ∉ cs := fun hm => h (List.mem_cons_of_mem _ hm)
    simp [splitUnd, hc, ih hcs]

theorem und_not_in_natRepr (n : Nat) : '_' ∉ natRepr n := by
  intro hm
  have hd := natRepr_digits n _ hm
  have : ('_' : Char).toNat = 95 := rfl
  omega

theorem und_not_in_intRepr (i : Int) : '_' ∉ intRepr i := by
  rw [intRepr]
  split
  · intro hm
    rcases List.mem_cons.1 hm with he | hm2
    · exact absurd he (by decide)
    · exact und_not_in_natRepr _ hm2
  · exact und_not_in_natRepr _

/-- Sender data used by the handlers (aiogram `message.from_user`). -/
structure FromUser where
  id : Int
  full_name : Option String
  username : Option String
  deriving DecidableEq

/-- Fields of an inbound message the handlers consult.  `photo` is the list
of size variants (Python truthiness: `None` and `[]` are both falsy);
`video` and `document` carry the file id when present. -/
structure Msg where
  chat_id : Int
  from_user : FromUser
  reply_to : Option Nat
  text : Option String
  caption : Option String
  photo : Option (List String)
  video : Option String
  document : Option String
  deriving DecidableEq

/-- Inbound button press; `data` is the callback payload string. -/
structure Callback where
  data : List Char
  deriving DecidableEq

/-- Transport oracle: for the n-th outbound call of a run, whether it
succeeds (otherwise it raises) and the message id it returns on success. -/
structure Oracle where
  ok : Nat → Bool
  mid : Nat → Nat

/-- One outbound transport call: the four send primitives (with an optional
inline-keyboard payload attached) and the transient callback acknowledgment. -/
inductive Call where
  | sendMessage (chatId : Int) (text : String) (btn : Option (List Char))
  | sendPhoto (chatId : Int) (file : String) (caption : String) (btn : Option (List Char))
  | sendVideo (chatId : Int) (file : String) (caption : String) (btn : Option (List Char))
  | sendDocument (chatId : Int) (file : String) (caption : String) (btn : Option (List Char))
  | cbAnswer (text : String) (alert : Bool)
  deriving DecidableEq

/-- Destination chat of a call, if it posts into a chat. -/
def Call.chatOf : Call → Option Int
  | sendMessage c _ _ => some c
  | sendPhoto c _ _ _ => some c
  | sendVideo c _ _ _ => some c
  | sendDocument c _ _ _ => some c
  | cbAnswer _ _ => none

/-- Result of running one handler: the attempted outbound calls paired with
their success, the entries inserted into user_message_map and
reply_message_map, the next call counter, and whether an exception escaped. -/
structure Out where
  trace : List (Call × Bool)
  userNew : List (Nat × Int)
  replyNew : List (Nat × Int)
  k : Nat
  raised : Bool
  deriving DecidableEq

/-- Handler result for an event the routing chain drops without side effects. -/
def noop (k : Nat) : Out :=
  { trace := [], userNew := [], replyNew := [], k := k, raised := false }

/-- Callback payload built by create_reply_button: `f"reply_{user_id}"`. -/
def create_reply_button (user_id : Int) : List Char :=
  "reply_".data ++ intRepr user_id

/-- Welcome text sent by cmd_start. -/
def welcome_text : String :=
  "Привет! 👋\n\nInsighteer позволяет тестировать маркетинговые креативы и стратегии.\n\nМожете задать любой вопрос, и мы вам обязательно ответим 👌"

/-- Placeholder used when a message has neither text nor caption. -/
def media_placeholder : String := "[Медиа-файл]"

/-- Profile link: `https://t.me/{username}` when the handle is truthy,
otherwise the id-based deep link. -/
def profile_link (u : FromUser) : String :=
  match u.username with
  | some s => if s = "" then "tg://user?id=" ++ toString u.id else "https://t.me/" ++ s
  | none => "tg://user?id=" ++ toString u.id

/-- Display part of the profile anchor: the handle, or `user?id={id}`. -/
def profile_handle (u : FromUser) : String :=
  match u.username with
  | some s => if s = "" then "user?id=" ++ toString u.id else s
  | none => "user?id=" ++ toString u.id

/-- The user-data block shared by the two notification messages. -/
def user_block (u : FromUser) : String :=
  "<b>Данные пользователя:</b>\nID: " ++ toString u.id ++ "\nИмя: " ++
    pyOr u.full_name "Не указано" ++ "\nПрофиль: <a href=\"" ++ profile_link u ++
    "\">t.me/" ++ profile_handle u ++ "</a>"

/-- Operator notification composed by cmd_start. -/
def start_admin_text (u : FromUser) : String :=
  "<b>Пользователь нажал /start</b>\n\n" ++ user_block u

/-- Operator notification composed by handle_message around the user's text. -/
def message_admin_text (u : FromUser) (body : String) : String :=
  "<b>Сообщение от пользователя:</b>\n\n" ++ body ++ "\n\n" ++ user_block u

/-- Text or caption of a message with the media placeholder fallback:
`message.text or message.caption or "[Медиа-файл]"`. -/
def contentText (m : Msg) : String :=
  pyOr m.text (pyOr m.caption media_placeholder)

/-- Prompt message posted by handle_reply_button. -/
def reply_prompt_text : String :=
  "<b>Ответ пользователю:</b>\n\nОтветьте на это сообщение, чтобы отправить ответ пользователю."

/-- Transient acknowledgment after a successful reply-button press. -/
def reply_button_ack : String :=
  "Теперь ответьте на сообщение выше, чтобы отправить ответ пользователю"

/-- Transient error acknowledgment of handle_reply_button. -/
def generic_error_ack : String := "Произошла ошибка. Попробуйте позже."

/-- Operator confirmation after a relayed reply. -/
def admin_reply_success : String := "✅ Ответ отправлен пользователю"

/-- Operator notice when relaying a reply failed. -/
def admin_reply_failure : String := "Произошла ошибка при отправке ответа пользователю."

/-- Receipt acknowledgment sent to the user by handle_message. -/
def message_ack : String := "Ваше сообщение отправлено, мы вскоре вам ответим ☺️"

/-- Generic retry-later notice sent to the user when handle_message fails. -/
def message_error : String := "Произошла ошибка при отправке сообщения. Попробуйте позже."

/-- Content-type dispatch shared by handle_admin_reply and handle_message:
photo (last, i.e. highest-resolution, variant) before video before document
before plain text, with the given accompanying text. -/
def sendContent (chatId : Int) (m : Msg) (txt : String) (btn : Option (List Char)) : Call :=
  match m.photo with
  | some (p :: ps) => Call.sendPhoto chatId ((p :: ps).getLast (by simp)) txt btn
  | _ =>
    match m.video with
    | some v => Call.sendVideo chatId v txt btn
    | none =>
      match m.document with
      | some d => Call.sendDocument chatId d txt btn
      | none => Call.sendMessage chatId txt btn

/-- Welcome reply of cmd_start, sent to the chat the /start came from. -/
def welcome_call (m : Msg) : Call := Call.sendMessage m.chat_id welcome_text none

/-- Operator notification of cmd_start, with the reply button attached. -/
def start_notif_call (admin : Int) (u : FromUser) : Call :=
  Call.sendMessage admin (start_admin_text u) (some (create_reply_button u.id))

/-- Handler of the /start command.  The welcome reply is sent outside the
try block; the operator notification is inside it, and its failure is
logged and swallowed. -/
def cmd_start (admin : Int) (o : Oracle) (k : Nat) (m : Msg) : Out :=
  if o.ok k then
    if o.ok (k + 1) then
      { trace := [(welcome_call m, true), (start_notif_call admin m.from_user, true)],
        userNew := [(o.mid (k + 1), m.from_user.id)], replyNew := [],
        k := k + 2, raised := false }
    else
      { trace := [(welcome_call m, true), (start_notif_call admin m.from_user, false)],
        userNew := [], replyNew := [],
        k := k + 2, raised := false }
  else
    { trace := [(welcome_call m, false)], userNew := [], replyNew := [],
      k := k + 1, raised := true }

/-- Error path of handle_reply_button: the except block acknowledges the
press with a transient alert; a failure of that acknowledgment escapes. -/
def replyButtonFail (o : Oracle) (k : Nat) (pre : List (Call × Bool))
    (entries : List (Nat × Int)) : Out :=
  if o.ok k then
    { trace := pre ++ [(Call.cbAnswer generic_error_ack true, true)],
      userNew := [], replyNew := entries, k := k + 1, raised := false }
  else
    { trace := pre ++ [(Call.cbAnswer generic_error_ack true, false)],
      userNew := [], replyNew := entries, k := k + 1, raised := true }

/-- Handler of a reply-button press: parse `int(callback.data.split("_")[1])`,
post the prompt into the admin chat, record the prompt message id against
the parsed user id, and acknowledge. -/
def handle_reply_button (admin : Int) (o : Oracle) (k : Nat) (c : Callback) : Out :=
  match (splitUnd c.data).get? 1 with
  | none => replyButtonFail o k [] []
  | some field =>
    match pyParseInt field with
    | none => replyButtonFail o k [] []
    | some uid =>
      let prompt := Call.sendMessage admin reply_prompt_text none
      if o.ok k then
        let entries := [(o.mid k, uid)]
        if o.ok (k + 1) then
          { trace := [(prompt, true), (Call.cbAnswer reply_button_ack false, true)],
            userNew := [], replyNew := entries, k := k + 2, raised := false }
        else
          replyButtonFail o (k + 2)
            [(prompt, true), (Call.cbAnswer reply_button_ack false, false)] entries
      else
        replyButtonFail o (k + 1) [(prompt, false)] []

/-- Handler of operator replies in the admin chat (dispatched only when the
message is a reply): look the replied-to id up in reply_message_map, drop
the event when the lookup is falsy, otherwise relay the content to the
stored user id and confirm to the operator. -/
def handle_admin_reply (o : Oracle) (k : Nat) (m : Msg) (reply_message_map : Dict) : Out :=
  match m.reply_to with
  | none => noop k
  | some rid =>
    match mapGet reply_message_map rid with
    | none => noop k
    | some uid =>
      if uid = 0 then noop k
      else
        let send := sendContent uid m (contentText m) none
        if o.ok k then
          if o.ok (k + 1) then
            { trace := [(send, true),
                (Call.sendMessage m.chat_id admin_reply_success none, true)],
              userNew := [], replyNew := [], k := k + 2, raised := false }
          else
            let pre := [(send, true),
              (Call.sendMessage m.chat_id admin_reply_success none, false)]
            if o.ok (k + 2) then
              { trace := pre ++ [(Call.sendMessage m.chat_id admin_reply_failure none, true)],
                userNew := [], replyNew := [], k := k + 3, raised := false }
            else
              { trace := pre ++ [(Call.sendMessage m.chat_id admin_reply_failure none, false)],
                userNew := [], replyNew := [], k := k + 3, raised := true }
        else
          if o.ok (k + 1) then
            { trace := [(send, false),
                (Call.sendMessage m.chat_id admin_reply_failure none, true)],
              userNew := [], replyNew := [], k := k + 2, raised := false }
          else
            { trace := [(send, false),
                (Call.sendMessage m.chat_id admin_reply_failure none, false)],
              userNew := [], replyNew := [], k := k + 2, raised := true }

/-- Catch-all handler of user messages: forward the content into the admin
chat with a reply button, record the forwarded message id, and acknowledge
receipt to the user; on failure send the retry-later notice instead. -/
def handle_message (admin : Int) (o : Oracle) (k : Nat) (m : Msg) : Out :=
  let fwd := sendContent admin m (message_admin_text m.from_user (contentText m))
    (some (create_reply_button m.from_user.id))
  let ack := Call.sendMessage m.chat_id message_ack none
  let err := Call.sendMessage m.chat_id message_error none
  if o.ok k then
    let entries := [(o.mid k, m.from_user.id)]
    if o.ok (k + 1) then
      { trace := [(fwd, true), (ack, true)],
        userNew := entries, replyNew := [], k := k + 2, raised := false }
    else
      if o.ok (k + 2) then
        { trace := [(fwd, true), (ack, false), (err, true)],
          userNew := entries, replyNew := [], k := k + 3, raised := false }
      else
        { trace := [(fwd, true), (ack, false), (err, false)],
          userNew := entries, replyNew := [], k := k + 3, raised := true }
  else
    if o.ok (k + 1) then
      { trace := [(fwd, false), (err, true)],
        userNew := [], replyNew := [], k := k + 2, raised := false }
    else
      { trace := [(fwd, false), (err, false)],
        userNew := [], replyNew := [], k := k + 2, raised := true }

/-- Filter of aiogram `Command("start")` on the message text. -/
def isStartText : List Char → Bool
  | '/' :: 's' :: 't' :: 'a' :: 'r' :: 't' :: rest =>
    match rest with
    | [] => true
    | c :: _ => c == ' ' || c == '@'
  | _ => false

/-- Whether a message triggers the cmd_start handler. -/
def isStartCmd (m : Msg) : Bool :=
  match m.text with
  | some s => isStartText s.data
  | none => false

/-- An inbound event: a message or a callback query. -/
inductive Update where
  | msg (m : Msg)
  | cb (c : Callback)
  deriving DecidableEq

/-- The dispatcher's routing chain, in registration order: cmd_start,
handle_reply_button (callback data starting with "reply_"),
handle_admin_reply (admin chat and a reply), then the catch-all
handle_message; a callback without the prefix has no handler. -/
def dispatchCore (admin : Int) (o : Oracle) (k : Nat) (u : Update)
    (reply_message_map : Dict) : Out :=
  match u with
  | .msg m =>
    if isStartCmd m then cmd_start admin o k m
    else if m.chat_id = admin ∧ m.reply_to.isSome then
      handle_admin_reply o k m reply_message_map
    else handle_message admin o k m
  | .cb c =>
    if "reply_".data.isPrefixOf c.data then handle_reply_button admin o k c
    else noop k

/-- The module-level correlation state of bot.py. -/
structure St where
  user_message_map : Dict
  reply_message_map : Dict
  deriving DecidableEq

/-- Application of the dict assignments performed by a handler. -/
def applyEntries (m : Dict) (es : List (Nat × Int)) : Dict :=
  es.foldl (fun acc e => mapSet acc e.1 e.2) m

/-- One step of the event loop: route the event and apply its insertions. -/
def dispatch (admin : Int) (o : Oracle) (k : Nat) (u : Update) (st : St) : Out × St :=
  let r := dispatchCore admin o k u st.reply_message_map
  (r, { user_message_map := applyEntries st.user_message_map r.userNew,
        reply_message_map := applyEntries st.reply_message_map r.replyNew })

/-- The event loop over a list of inbound events, threading the correlation
state and the call counter. -/
def runUpdates (admin : Int) (o : Oracle) : List Update → St × Nat → St × Nat
  | [], sk => sk
  | u :: us, sk =>
    let r := dispatch admin o sk.2 u sk.1
    runUpdates admin o us (r.2, r.1.k)

/-- Shape of the dict insertions of one handler invocation started at call
counter `k`: the counter does not decrease, and each table receives at most
one new entry, keyed by a message id the oracle returned during this
invocation. -/
def entriesOk (o : Oracle) (k : Nat) (r : Out) : Prop :=
  k ≤ r.k
  ∧ (r.userNew = [] ∨ ∃ j v, k ≤ j ∧ j < r.k ∧ r.userNew = [(o.mid j, v)])
  ∧ (r.replyNew = [] ∨ ∃ j v, k ≤ j ∧ j < r.k ∧ r.replyNew = [(o.mid j, v)])

/-- Invariant of the event loop: every key of the current tables is either a
key of the initial tables or a message id delivered before counter `k`. -/
def keysBounded (o : Oracle) (st₀ st : St) (k : Nat) : Prop :=
  (∀ key, (mapGet st.user_message_map key).isSome →
    (mapGet st₀.user_message_map key).isSome ∨ ∃ j, j < k ∧ key = o.mid j)
  ∧ (∀ key, (mapGet st.reply_message_map key).isSome →
    (mapGet st₀.reply_message_map key).isSome ∨ ∃ j, j < k ∧ key = o.mid j)

/-- Scheduler registration parameters, as passed to the cron trigger and
`add_job` in `main`. -/
structure CronJob where
  hour : Nat
  minute : Nat
  timezoneName : String
  jobId : String
  replaceExisting : Bool
  deriving DecidableEq

/-- The daily motivation job registered by `main`:
`CronTrigger(hour=8, minute=40, timezone=ZoneInfo("Europe/Moscow"))` with
id `daily_motivation` and `replace_existing=True`. -/
def daily_motivation_job : CronJob :=
  { hour := 8, minute := 40, timezoneName := "Europe/Moscow",
    jobId := "daily_motivation", replaceExisting := true }

/-- Wall-clock firing time of the job in its own timezone, in minutes after
midnight. -/
def CronJob.localMinutes (j : CronJob) : Nat := j.hour * 60 + j.minute

/-- Modelled from the claim's words: the accompanying text C1 predicts for a
relayed operator reply — the reply's text when present, else its caption,
else the literal placeholder. -/
def claimed_reply_text (m : Msg) : String :=
  match m.text with
  | some t => t
  | none =>
    match m.caption with
    | some c0 => c0
    | none => "[Медиа-файл]"

/-- Oracle used by the concrete witnesses: every call succeeds and the n-th
call returns message id `900 + n`. -/
def w_ok : Oracle := { ok := fun _ => true, mid := fun j => 900 + j }

/-- Operator-authored non-reply message in the admin chat `-1001`. -/
def c4_msg : Msg :=
  { chat_id := -1001,
    from_user := { id := 7, full_name := some "Op", username := none },
    reply_to := none, text := some "hello", caption := none,
    photo := none, video := none, document := none }

/-- Operator reply (in admin chat `-1001`) to message id 555, carrying a
photo with a caption. -/
def w_photo_reply : Msg :=
  { chat_id := -1001,
    from_user := { id := 7, full_name := some "Op", username := none },
    reply_to := some 555, text := none, caption := some "подпись",
    photo := some ["small", "big"], video := some "vid", document := none }

/-- Plain text message from user 42. -/
def w_user_msg : Msg :=
  { chat_id := 42,
    from_user := { id := 42, full_name := some "Alice", username := some "alice99" },
    reply_to := none, text := some "Hello", caption := none,
    photo := none, video := none, document := none }

/-- Plain text message from user 43. -/
def w_user_msg2 : Msg :=
  { chat_id := 43,
    from_user := { id := 43, full_name := none, username := none },
    reply_to := none, text := some "Hi", caption := none,
    photo := none, video := none, document := none }

/-- Initial correlation state used by the persistence witness. -/
def w_st0 : St := { user_message_map := [(1, 5)], reply_message_map := [(2, 6)] }

/-- Oracle failing exactly the first outbound call of a run. -/
def w_fail0 : Oracle := { ok := fun j => j != 0, mid := fun j => 900 + j }

/-- Oracle failing exactly the second outbound call of a run. -/
def w_fail1 : Oracle := { ok := fun j => j != 1, mid := fun j => 900 + j }

/-- C3: the claim says the registered cron trigger denotes 09:00 wall-clock
time in Europe/Moscow.  The code registers the trigger in Europe/Moscow but
at hour 8, minute 40, i.e. 08:40 local time, contradicting the comment and
the log line of the same function which both say 9:00 МСК. -/
theorem daily_job_fires_at_0840_not_0900 :
    daily_motivation_job.timezoneName = "Europe/Moscow"
    ∧ daily_motivation_job.localMinutes = 8 * 60 + 40
    ∧ daily_motivation_job.localMinutes ≠ 9 * 60 := by
  decide

/-- C10: an operator reply to a tracked prompt whose stored target user id
is 0 is handled exactly like an untracked prompt: the truthiness test on
the lookup result drops the event with no outbound call, no state change
and no exception, identically to any state in which the prompt id is
absent. -/
theorem admin_reply_zero_target_noop (o : Oracle) (k : Nat) (m : Msg) (rm : Dict)
    (rid : Nat) (hrid : m.reply_to = some rid) (hget : mapGet rm rid = some 0) :
    handle_admin_reply o k m rm = noop k
    ∧ ∀ rm2, mapGet rm2 rid = none → handle_admin_reply o k m rm2 = handle_admin_reply o k m rm := by
  constructor
  · simp [handle_admin_reply, hrid, hget]
  · intro rm2 h2
    simp [handle_admin_reply, hrid, hget, h2]

theorem admin_reply_zero_target_noop_witness :
    handle_admin_reply w_ok 0 w_photo_reply [(555, 0)] = noop 0 :=
  (admin_reply_zero_target_noop w_ok 0 w_photo_reply [(555, 0)] 555 rfl (by decide)).1

/-- C9: the forwarded-message table is write-only: two states agreeing on
the reply-prompt table produce, for every inbound event, the same handler
result (trace, insertions, counter, raised flag) and the same resulting
reply-prompt table. -/
theorem forwarded_table_never_read (admin : Int) (o : Oracle) (k : Nat) (u : Update)
    (st1 st2 : St) (h : st1.reply_message_map = st2.reply_message_map) :
    (dispatch admin o k u st1).1 = (dispatch admin o k u st2).1
    ∧ (dispatch admin o k u st1).2.reply_message_map =
        (dispatch admin o k u st2).2.reply_message_map := by
  simp [dispatch, h]

theorem forwarded_table_never_read_witness :
    (dispatch (-1001) w_ok 0 (.msg w_user_msg) ⟨[(1, 5)], [(2, 6)]⟩).1 =
      (dispatch (-1001) w_ok 0 (.msg w_user_msg) ⟨[], [(2, 6)]⟩).1 :=
  (forwarded_table_never_read (-1001) w_ok 0 (.msg w_user_msg)
    ⟨[(1, 5)], [(2, 6)]⟩ ⟨[], [(2, 6)]⟩ rfl).1

/-- C7 counterexample: the payload "reply_1_x" has the "reply_" prefix and a
suffix "1_x" that does not parse as a decimal integer, yet the handler does
not take the error path: it splits on underscores and parses only the
second field "1", so it posts the prompt into the admin chat and inserts a
reply-prompt entry for user 1 — the claim's "sends no channel message,
inserts no entry" fails at this input. -/
theorem reply_button_malformed_suffix_counterexample :
    "reply_".data.isPrefixOf "reply_1_x".data = true
    ∧ pyParseInt "1_x".data = none
    ∧ (handle_reply_button (-1001) w_ok 0 ⟨"reply_1_x".data⟩).trace.head? =
        some (Call.sendMessage (-1001) reply_prompt_text none, true)
    ∧ (handle_reply_button (-1001) w_ok 0 ⟨"reply_1_x".data⟩).replyNew = [(900, 1)] := by
  decide

/-- C7 amended: for every button press whose payload's second
underscore-separated field does not parse as a decimal integer, the handler
performs no channel send and no insertion, only the transient failure
acknowledgment, and does not raise when that acknowledgment is delivered. -/
theorem reply_button_malformed_field_graceful (admin : Int) (o : Oracle) (k : Nat)
    (c : Callback) (field : List Char)
    (hfield : (splitUnd c.data).get? 1 = some field)
    (hparse : pyParseInt field = none) :
    (handle_reply_button admin o k c).trace =
      [(Call.cbAnswer generic_error_ack true, o.ok k)]
    ∧ (handle_reply_button admin o k c).userNew = []
    ∧ (handle_reply_button admin o k c).replyNew = []
    ∧ (o.ok k = true → (handle_reply_button admin o k c).raised = false) := by
  simp only [handle_reply_button, hfield, hparse, replyButtonFail]
  cases h : o.ok k <;> simp

theorem reply_button_malformed_field_graceful_witness :
    (handle_reply_button (-1001) w_ok 0 ⟨"reply_abc".data⟩).trace =
      [(Call.cbAnswer generic_error_ack true, true)]
    ∧ (handle_reply_button (-1001) w_ok 0 ⟨"reply_abc".data⟩).replyNew = []
    ∧ (handle_reply_button (-1001) w_ok 0 ⟨"reply_abc".data⟩).raised = false := by
  have h := reply_button_malformed_field_graceful (-1001) w_ok 0 ⟨"reply_abc".data⟩
    "abc".data (by decide) (by decide)
  exact ⟨h.1, h.2.2.1, h.2.2.2 rfl⟩

/-- C4 counterexample: an operator-authored message in the admin chat that
is not a reply does not fall through unhandled — the catch-all user-message
handler picks it up and produces outbound sends (it forwards the message
back into the admin chat and posts an acknowledgment). -/
theorem admin_nonreply_not_noop_counterexample :
    c4_msg.chat_id = -1001 ∧ c4_msg.reply_to = none
    ∧ (dispatchCore (-1001) w_ok 0 (.msg c4_msg) []).trace ≠ []
    ∧ (dispatchCore (-1001) w_ok 0 (.msg c4_msg) []).trace.length = 2 := by
  decide

/-- C4 amended: an operator-chat message (other than a /start command) that
replies to a message id absent from the reply-prompt table is dropped with
no outbound send and no state change; an operator-chat non-reply message
does not fall through unhandled but is processed by the catch-all
user-message handler. -/
theorem router_admin_fallthrough (admin : Int) (o : Oracle) (k : Nat) (m : Msg)
    (rm : Dict) (hstart : isStartCmd m = false) (hchat : m.chat_id = admin) :
    (∀ rid, m.reply_to = some rid → mapGet rm rid = none →
      dispatchCore admin o k (.msg m) rm = noop k)
    ∧ (m.reply_to = none →
      dispatchCore admin o k (.msg m) rm = handle_message admin o k m) := by
  constructor
  · intro rid hrid hget
    have hcond : m.chat_id = admin ∧ m.reply_to.isSome := ⟨hchat, by simp [hrid]⟩
    simp [dispatchCore, hstart, hcond, handle_admin_reply, hrid, hget]
  · intro hnone
    simp [dispatchCore, hstart, hnone, hchat]

theorem router_admin_fallthrough_witness :
    dispatchCore (-1001) w_ok 0 (.msg { c4_msg with reply_to := some 999 }) [] = noop 0
    ∧ dispatchCore (-1001) w_ok 0 (.msg c4_msg) [] = handle_message (-1001) w_ok 0 c4_msg := by
  have h := router_admin_fallthrough (-1001) w_ok 0 { c4_msg with reply_to := some 999 }
    [] (by decide) (by decide)
  have h2 := router_admin_fallthrough (-1001) w_ok 0 c4_msg [] (by decide) (by decide)
  exact ⟨h.1 999 rfl (by decide), h2.2 rfl⟩

theorem splitUnd_payload (U : Int) :
    (splitUnd (create_reply_button U)).get? 1 = some (intRepr U) := by
  have hdata : "reply_".data = ['r', 'e', 'p', 'l', 'y', '_'] := by decide
  have hpre : ('_' : Char) ∉ ['r', 'e', 'p', 'l', 'y'] := by decide
  have hsplit : create_reply_button U = ['r', 'e', 'p', 'l', 'y'] ++ '_' :: intRepr U := by
    simp [create_reply_button, hdata]
  rw [hsplit, splitUnd_append _ _ hpre, splitUnd_no_und _ (und_not_in_intRepr U)]
  rfl

/-- C2: for every user id U the forward handler attaches a control whose
payload is the literal "reply_" followed by U in decimal; activating that
control parses the payload back to exactly U and inserts the entry (prompt
message id, U) into the reply-prompt table, whatever entries the table
already holds. -/
theorem reply_button_payload_roundtrip (admin : Int) (o : Oracle) (k : Nat) (U : Int)
    (m : Msg) (rm : Dict) (hok : o.ok k = true) (hm : m.from_user.id = U) :
    create_reply_button U = "reply_".data ++ intRepr U
    ∧ (handle_message admin o k m).trace.head? =
        some (sendContent admin m (message_admin_text m.from_user (contentText m))
          (some (create_reply_button U)), o.ok k)
    ∧ pyParseInt (intRepr U) = some U
    ∧ (handle_reply_button admin o k ⟨create_reply_button U⟩).replyNew = [(o.mid k, U)]
    ∧ mapGet (applyEntries rm (handle_reply_button admin o k ⟨create_reply_button U⟩).replyNew)
        (o.mid k) = some U := by
  have h4 : (handle_reply_button admin o k ⟨create_reply_button U⟩).replyNew =
      [(o.mid k, U)] := by
    simp only [handle_reply_button, splitUnd_payload U, pyParseInt_intRepr U]
    cases h2 : o.ok (k + 1) <;> cases h3 : o.ok (k + 2) <;>
      simp [hok, h2, h3, replyButtonFail]
  refine ⟨rfl, ?_, pyParseInt_intRepr U, h4, ?_⟩
  · subst hm
    cases h1 : o.ok k <;> cases h2 : o.ok (k + 1) <;> cases h3 : o.ok (k + 2) <;>
      simp [handle_message, h1, h2, h3]
  · rw [h4]
    show mapGet (applyEntries rm [(o.mid k, U)]) (o.mid k) = some U
    simpa [applyEntries] using mapGet_mapSet_self rm (o.mid k) U

theorem reply_button_payload_roundtrip_witness :
    pyParseInt (intRepr 42) = some 42
    ∧ (handle_reply_button (-1001) w_ok 0 ⟨create_reply_button 42⟩).replyNew = [(900, 42)]
    ∧ mapGet (applyEntries [(7, 5)]
        (handle_reply_button (-1001) w_ok 0 ⟨create_reply_button 42⟩).replyNew) 900 = some 42 := by
  have h := reply_button_payload_roundtrip (-1001) w_ok 0 42 w_user_msg [(7, 5)] rfl rfl
  exact ⟨h.2.2.1, h.2.2.2.1, h.2.2.2.2⟩

theorem contentText_eq_claimed (m : Msg) (htext : m.text ≠ some "")
    (hcap : m.caption ≠ some "") :
    contentText m = claimed_reply_text m := by
  unfold contentText claimed_reply_text media_placeholder
  cases ht : m.text with
  | some t =>
    have hne : ¬t = "" := fun he => htext (by rw [ht, he])
    simp [pyOr, hne]
  | none =>
    cases hc : m.caption with
    | some c0 =>
      have hne : ¬c0 = "" := fun he => hcap (by rw [hc, he])
      simp [pyOr, hne]
    | none => simp [pyOr]

theorem handle_admin_reply_head (o : Oracle) (k : Nat) (m : Msg) (rm : Dict)
    (rid : Nat) (uid : Int) (hrid : m.reply_to = some rid)
    (hget : mapGet rm rid = some uid) (h0 : uid ≠ 0) :
    (handle_admin_reply o k m rm).trace.head? =
      some (sendContent uid m (contentText m) none, o.ok k) := by
  simp only [handle_admin_reply, hrid, hget]
  rw [if_neg h0]
  cases h1 : o.ok k <;> cases h2 : o.ok (k + 1) <;> cases h3 : o.ok (k + 2) <;>
    simp [h1, h2, h3]

/-- C1: an operator reply to a tracked prompt (with a platform-realizable
message: present text or caption is non-empty) is relayed to the stored
target user id, picking photo (last size variant) before video before
document before plain text, with the reply's text, else caption, else the
literal placeholder "[Медиа-файл]" as accompanying text; a reply to an
untracked prompt produces no outbound call at all. -/
theorem admin_reply_priority_and_verbatim (o : Oracle) (k : Nat) (m : Msg) (rm : Dict)
    (rid : Nat) (hrid : m.reply_to = some rid)
    (htext : m.text ≠ some "") (hcap : m.caption ≠ some "") :
    (mapGet rm rid = none → handle_admin_reply o k m rm = noop k)
    ∧ ∀ uid, mapGet rm rid = some uid → uid ≠ 0 →
      ((∀ p ps, m.photo = some (p :: ps) →
        (handle_admin_reply o k m rm).trace.head? =
          some (Call.sendPhoto uid ((p :: ps).getLast (by simp))
            (claimed_reply_text m) none, o.ok k))
      ∧ ((m.photo = none ∨ m.photo = some []) → ∀ v, m.video = some v →
        (handle_admin_reply o k m rm).trace.head? =
          some (Call.sendVideo uid v (claimed_reply_text m) none, o.ok k))
      ∧ ((m.photo = none ∨ m.photo = some []) → m.video = none →
          ∀ d, m.document = some d →
        (handle_admin_reply o k m rm).trace.head? =
          some (Call.sendDocument uid d (claimed_reply_text m) none, o.ok k))
      ∧ ((m.photo = none ∨ m.photo = some []) → m.video = none → m.document = none →
        (handle_admin_reply o k m rm).trace.head? =
          some (Call.sendMessage uid (claimed_reply_text m) none, o.ok k))) := by
  constructor
  · intro hnone
    simp [handle_admin_reply, hrid, hnone]
  · intro uid hget h0
    have hh := handle_admin_reply_head o k m rm rid uid hrid hget h0
    rw [contentText_eq_claimed m htext hcap] at hh
    refine ⟨?_, ?_, ?_, ?_⟩
    · intro p ps hp
      rw [hh]; simp [sendContent, hp]
    · rintro (hph | hph) v hv <;> rw [hh] <;> simp [sendContent, hph, hv]
    · rintro (hph | hph) hv d hd <;> rw [hh] <;> simp [sendContent, hph, hv, hd]
    · rintro (hph | hph) hv hd <;> rw [hh] <;> simp [sendContent, hph, hv, hd]

theorem admin_reply_priority_witness :
    (handle_admin_reply w_ok 0 w_photo_reply [(555, 42)]).trace.head? =
      some (Call.sendPhoto 42 "big" "подпись" none, true) := by
  have h := (admin_reply_priority_and_verbatim w_ok 0 w_photo_reply [(555, 42)] 555 rfl
    (by decide) (by decide)).2 42 (by decide) (by decide)
  exact h.1 "small" ["big"] rfl

/-- C6: for every /start event exactly one welcome reply is attempted, at
most one operator notification is attempted, the welcome comes first and is
attempted whatever the transport does; when the notification fails the
exception is swallowed and the welcome had already succeeded. -/
theorem cmd_start_welcome_then_notify (admin : Int) (o : Oracle) (k : Nat) (m : Msg) :
    (cmd_start admin o k m).trace.countP (fun e => decide (e.1 = welcome_call m)) = 1
    ∧ (cmd_start admin o k m).trace.countP
        (fun e => decide (e.1 = start_notif_call admin m.from_user)) ≤ 1
    ∧ (cmd_start admin o k m).trace.head? = some (welcome_call m, o.ok k)
    ∧ ((start_notif_call admin m.from_user, false) ∈ (cmd_start admin o k m).trace →
        (cmd_start admin o k m).raised = false
        ∧ (welcome_call m, true) ∈ (cmd_start admin o k m).trace) := by
  have hne : welcome_call m ≠ start_notif_call admin m.from_user := by
    simp [welcome_call, start_notif_call]
  cases h1 : o.ok k <;> cases h2 : o.ok (k + 1) <;>
    simp [cmd_start, h1, h2, List.countP_cons, hne, Ne.symm hne]

theorem cmd_start_welcome_then_notify_witness :
    (cmd_start (-1001) w_fail1 0 w_user_msg).trace.countP
      (fun e => decide (e.1 = welcome_call w_user_msg)) = 1
    ∧ (cmd_start (-1001) w_fail1 0 w_user_msg).raised = false
    ∧ (welcome_call w_user_msg, true) ∈ (cmd_start (-1001) w_fail1 0 w_user_msg).trace := by
  have h := cmd_start_welcome_then_notify (-1001) w_fail1 0 w_user_msg
  have h4 := h.2.2.2 (by simp [cmd_start, w_fail1])
  exact ⟨h.1, h4.1, h4.2⟩

/-- C5: the user-facing acknowledgment and the operator-facing forward of
handle_message are independent: whatever the transport does, a send to the
user's chat is attempted; when the forward fails the handler still attempts
the user-facing notice, swallows the forward error when that notice is
delivered, and can only raise from a failed user-facing attempt. -/
theorem handle_message_ack_independent (admin : Int) (o : Oracle) (k : Nat) (m : Msg) :
    (∃ e ∈ (handle_message admin o k m).trace, e.1.chatOf = some m.chat_id)
    ∧ (o.ok k = false →
        (handle_message admin o k m).trace =
          [(sendContent admin m (message_admin_text m.from_user (contentText m))
              (some (create_reply_button m.from_user.id)), false),
            (Call.sendMessage m.chat_id message_error none, o.ok (k + 1))])
    ∧ (o.ok k = false → o.ok (k + 1) = true →
        (handle_message admin o k m).raised = false)
    ∧ ((handle_message admin o k m).raised = true →
        ∃ c, (handle_message admin o k m).trace.getLast? = some (c, false)
          ∧ c.chatOf = some m.chat_id) := by
  cases h1 : o.ok k <;> cases h2 : o.ok (k + 1) <;> cases h3 : o.ok (k + 2) <;>
    simp [handle_message, h1, h2, h3, Call.chatOf]

theorem handle_message_ack_independent_witness :
    (handle_message (-1001) w_fail0 0 w_user_msg).trace =
      [(sendContent (-1001) w_user_msg
          (message_admin_text w_user_msg.from_user (contentText w_user_msg))
          (some (create_reply_button 42)), false),
        (Call.sendMessage 42 message_error none, true)]
    ∧ (handle_message (-1001) w_fail0 0 w_user_msg).raised = false := by
  have h := handle_message_ack_independent (-1001) w_fail0 0 w_user_msg
  exact ⟨h.2.1 rfl, h.2.2.1 rfl rfl⟩

theorem mapGet_mapSet_isSome (m : Dict) (kk key : Nat) (v : Int)
    (h : (mapGet (mapSet m kk v) key).isSome) :
    key = kk ∨ (mapGet m key).isSome := by
  by_cases hne : key = kk
  · exact Or.inl hne
  · rw [mapGet_mapSet_of_ne m kk key v hne] at h
    exact Or.inr h

theorem entriesOk_noop (o : Oracle) (k : Nat) : entriesOk o k (noop k) :=
  ⟨Nat.le_refl k, Or.inl rfl, Or.inl rfl⟩

theorem entriesOk_cmd_start (admin : Int) (o : Oracle) (k : Nat) (m : Msg) :
    entriesOk o k (cmd_start admin o k m) := by
  unfold cmd_start
  cases h1 : o.ok k <;> cases h2 : o.ok (k + 1)
  · exact ⟨Nat.le_succ k, Or.inl rfl, Or.inl rfl⟩
  · exact ⟨Nat.le_succ k, Or.inl rfl, Or.inl rfl⟩
  · exact ⟨Nat.le_add_right k 2, Or.inl rfl, Or.inl rfl⟩
  · exact ⟨Nat.le_add_right k 2,
      Or.inr ⟨k + 1, m.from_user.id, Nat.le_succ k, Nat.lt_succ_self (k + 1), rfl⟩,
      Or.inl rfl⟩

theorem entriesOk_replyButtonFail (o : Oracle) (k k0 : Nat) (pre : List (Call × Bool))
    (es : List (Nat × Int)) (hk : k0 ≤ k)
    (hes : es = [] ∨ ∃ j v, k0 ≤ j ∧ j < k ∧ es = [(o.mid j, v)]) :
    entriesOk o k0 (replyButtonFail o k pre es) := by
  have hshape : es = [] ∨ ∃ j v, k0 ≤ j ∧ j < k + 1 ∧ es = [(o.mid j, v)] := by
    rcases hes with h | ⟨j, v, hj1, hj2, hj3⟩
    · exact Or.inl h
    · exact Or.inr ⟨j, v, hj1, Nat.lt_succ_of_lt hj2, hj3⟩
  unfold replyButtonFail
  cases h1 : o.ok k
  · exact ⟨hk.trans (Nat.le_succ k), Or.inl rfl, hshape⟩
  · exact ⟨hk.trans (Nat.le_succ k), Or.inl rfl, hshape⟩

theorem entriesOk_handle_reply_button (admin : Int) (o : Oracle) (k : Nat) (c : Callback) :
    entriesOk o k (handle_reply_button admin o k c) := by
  cases hsp : (splitUnd c.data).get? 1 with
  | none =>
    have he : handle_reply_button admin o k c = replyButtonFail o k [] [] := by
      simp only [handle_reply_button, hsp]
    rw [he]
    exact entriesOk_replyButtonFail o k k [] [] (Nat.le_refl k) (Or.inl rfl)
  | some field =>
    cases hpi : pyParseInt field with
    | none =>
      have he : handle_reply_button admin o k c = replyButtonFail o k [] [] := by
        simp only [handle_reply_button, hsp, hpi]
      rw [he]
      exact entriesOk_replyButtonFail o k k [] [] (Nat.le_refl k) (Or.inl rfl)
    | some uid =>
      have he : ∀ r : Out, handle_reply_button admin o k c = r → entriesOk o k r →
          entriesOk o k (handle_reply_button admin o k c) := by
        intro r hr h
        rw [hr]; exact h
      simp only [handle_reply_button, hsp, hpi]
      cases h1 : o.ok k
      · exact entriesOk_replyButtonFail o (k + 1) k _ [] (Nat.le_succ k) (Or.inl rfl)
      · cases h2 : o.ok (k + 1)
        · exact entriesOk_replyButtonFail o (k + 2) k _ [(o.mid k, uid)]
            (Nat.le_add_right k 2)
            (Or.inr ⟨k, uid, Nat.le_refl k, Nat.lt_add_of_pos_right (by decide), rfl⟩)
        · exact ⟨Nat.le_add_right k 2, Or.inl rfl,
            Or.inr ⟨k, uid, Nat.le_refl k, Nat.lt_add_of_pos_right (by decide), rfl⟩⟩

theorem entriesOk_handle_admin_reply (o : Oracle) (k : Nat) (m : Msg) (rm : Dict) :
    entriesOk o k (handle_admin_reply o k m rm) := by
  cases hrid : m.reply_to with
  | none =>
    have he : handle_admin_reply o k m rm = noop k := by
      simp [handle_admin_reply, hrid]
    rw [he]; exact entriesOk_noop o k
  | some rid =>
    cases hget : mapGet rm rid with
    | none =>
      have he : handle_admin_reply o k m rm = noop k := by
        simp [handle_admin_reply, hrid, hget]
      rw [he]; exact entriesOk_noop o k
    | some uid =>
      by_cases h0 : uid = 0
      · have he : handle_admin_reply o k m rm = noop k := by
          simp [handle_admin_reply, hrid, hget, h0]
        rw [he]; exact entriesOk_noop o k
      · simp only [handle_admin_reply, hrid, hget]
        rw [if_neg h0]
        cases h1 : o.ok k <;> cases h2 : o.ok (k + 1) <;> cases h3 : o.ok (k + 2)
        · exact ⟨Nat.le_add_right k 2, Or.inl rfl, Or.inl rfl⟩
        · exact ⟨Nat.le_add_right k 2, Or.inl rfl, Or.inl rfl⟩
        · exact ⟨Nat.le_add_right k 2, Or.inl rfl, Or.inl rfl⟩
        · exact ⟨Nat.le_add_right k 2, Or.inl rfl, Or.inl rfl⟩
        · exact ⟨Nat.le_add_right k 3, Or.inl rfl, Or.inl rfl⟩
        · exact ⟨Nat.le_add_right k 3, Or.inl rfl, Or.inl rfl⟩
        · exact ⟨Nat.le_add_right k 2, Or.inl rfl, Or.inl rfl⟩
        · exact ⟨Nat.le_add_right k 2, Or.inl rfl, Or.inl rfl⟩

theorem entriesOk_handle_message (admin : Int) (o : Oracle) (k : Nat) (m : Msg) :
    entriesOk o k (handle_message admin o k m) := by
  unfold handle_message
  cases h1 : o.ok k <;> cases h2 : o.ok (k + 1) <;> cases h3 : o.ok (k + 2) <;>
    first
      | exact ⟨Nat.le_add_right k 2, Or.inl rfl, Or.inl rfl⟩
      | exact ⟨Nat.le_add_right k 2,
          Or.inr ⟨k, m.from_user.id, Nat.le_refl k,
            Nat.lt_add_of_pos_right (by decide), rfl⟩, Or.inl rfl⟩
      | exact ⟨Nat.le_add_right k 3,
          Or.inr ⟨k, m.from_user.id, Nat.le_refl k,
            Nat.lt_add_of_pos_right (by decide), rfl⟩, Or.inl rfl⟩

theorem entriesOk_dispatchCore (admin : Int) (o : Oracle) (k : Nat) (u : Update)
    (rm : Dict) : entriesOk o k (dispatchCore admin o k u rm) := by
  cases u with
  | msg m =>
    have he : dispatchCore admin o k (.msg m) rm =
        (if isStartCmd m then cmd_start admin o k m
         else if m.chat_id = admin ∧ m.reply_to.isSome then handle_admin_reply o k m rm
         else handle_message admin o k m) := rfl
    rw [he]
    by_cases hs : isStartCmd m = true
    · rw [if_pos hs]; exact entriesOk_cmd_start admin o k m
    · rw [if_neg hs]
      by_cases hc : m.chat_id = admin ∧ m.reply_to.isSome = true
      · rw [if_pos hc]; exact entriesOk_handle_admin_reply o k m rm
      · rw [if_neg hc]; exact entriesOk_handle_message admin o k m
  | cb c =>
    have he : dispatchCore admin o k (.cb c) rm =
        (if "reply_".data.isPrefixOf c.data then handle_reply_button admin o k c
         else noop k) := rfl
    rw [he]
    by_cases hp : "reply_".data.isPrefixOf c.data = true
    · rw [if_pos hp]; exact entriesOk_handle_reply_button admin o k c
    · rw [if_neg hp]; exact entriesOk_noop o k

theorem applyEntries_preserve (o : Oracle) (k : Nat) (m : Dict)
    (es : List (Nat × Int))
    (hes : es = [] ∨ ∃ j v, k ≤ j ∧ es = [(o.mid j, v)])
    (hfresh : ∀ j, k ≤ j → mapGet m (o.mid j) = none) :
    ∀ key v, mapGet m key = some v → mapGet (applyEntries m es) key = some v := by
  intro key v h
  rcases hes with rfl | ⟨j, v0, hj, rfl⟩
  · exact h
  · show mapGet (mapSet m (o.mid j) v0) key = some v
    exact mapGet_mapSet_preserve m (o.mid j) key v0 v (hfresh j hj) h

theorem applyEntries_bound (o : Oracle) (kmax : Nat) (m : Dict)
    (es : List (Nat × Int))
    (hes : es = [] ∨ ∃ j v, j < kmax ∧ es = [(o.mid j, v)]) :
    ∀ key, (mapGet (applyEntries m es) key).isSome →
      (mapGet m key).isSome ∨ ∃ j, j < kmax ∧ key = o.mid j := by
  intro key h
  rcases hes with rfl | ⟨j, v0, hj, rfl⟩
  · exact Or.inl h
  · rcases mapGet_mapSet_isSome m (o.mid j) key v0 h with he | hm
    · exact Or.inr ⟨j, hj, he⟩
    · exact Or.inl hm

theorem dispatch_preserves (admin : Int) (o : Oracle) (k : Nat) (u : Update)
    (st st0 : St)
    (hinj : ∀ i j, o.mid i = o.mid j → i = j)
    (hfreshU : ∀ j, mapGet st0.user_message_map (o.mid j) = none)
    (hfreshR : ∀ j, mapGet st0.reply_message_map (o.mid j) = none)
    (hkb : keysBounded o st0 st k) :
    (∀ key v, mapGet st.user_message_map key = some v →
      mapGet (dispatch admin o k u st).2.user_message_map key = some v)
    ∧ (∀ key v, mapGet st.reply_message_map key = some v →
      mapGet (dispatch admin o k u st).2.reply_message_map key = some v)
    ∧ keysBounded o st0 (dispatch admin o k u st).2 (dispatch admin o k u st).1.k
    ∧ k ≤ (dispatch admin o k u st).1.k := by
  simp only [dispatch, keysBounded]
  obtain ⟨hk, hu, hr⟩ := entriesOk_dispatchCore admin o k u st.reply_message_map
  have hfreshStU : ∀ j, k ≤ j → mapGet st.user_message_map (o.mid j) = none := by
    intro j hj
    cases hcur : mapGet st.user_message_map (o.mid j) with
    | none => rfl
    | some w =>
      exfalso
      rcases hkb.1 (o.mid j) (by rw [hcur]; rfl) with h0 | ⟨j2, hj2, he⟩
      · rw [hfreshU j] at h0; exact absurd h0 (by simp)
      · have := hinj _ _ he.symm
        omega
  have hfreshStR : ∀ j, k ≤ j → mapGet st.reply_message_map (o.mid j) = none := by
    intro j hj
    cases hcur : mapGet st.reply_message_map (o.mid j) with
    | none => rfl
    | some w =>
      exfalso
      rcases hkb.2 (o.mid j) (by rw [hcur]; rfl) with h0 | ⟨j2, hj2, he⟩
      · rw [hfreshR j] at h0; exact absurd h0 (by simp)
      · have := hinj _ _ he.symm
        omega
  refine ⟨?_, ?_, ⟨?_, ?_⟩, hk⟩
  · exact applyEntries_preserve o k st.user_message_map _
      (by rcases hu with h | ⟨j, v, hj1, hj2, hj3⟩
          · exact Or.inl h
          · exact Or.inr ⟨j, v, hj1, hj3⟩) hfreshStU
  · exact applyEntries_preserve o k st.reply_message_map _
      (by rcases hr with h | ⟨j, v, hj1, hj2, hj3⟩
          · exact Or.inl h
          · exact Or.inr ⟨j, v, hj1, hj3⟩) hfreshStR
  · intro key h
    rcases applyEntries_bound o (dispatchCore admin o k u st.reply_message_map).k
      st.user_message_map _
      (by rcases hu with h | ⟨j, v, hj1, hj2, hj3⟩
          · exact Or.inl h
          · exact Or.inr ⟨j, v, hj2, hj3⟩) key h with hold | hnew
    · rcases hkb.1 key hold with h0 | ⟨j, hj, he⟩
      · exact Or.inl h0
      · exact Or.inr ⟨j, by omega, he⟩
    · exact Or.inr hnew
  · intro key h
    rcases applyEntries_bound o (dispatchCore admin o k u st.reply_message_map).k
      st.reply_message_map _
      (by rcases hr with h | ⟨j, v, hj1, hj2, hj3⟩
          · exact Or.inl h
          · exact Or.inr ⟨j, v, hj2, hj3⟩) key h with hold | hnew
    · rcases hkb.2 key hold with h0 | ⟨j, hj, he⟩
      · exact Or.inl h0
      · exact Or.inr ⟨j, by omega, he⟩
    · exact Or.inr hnew

theorem runUpdates_append (admin : Int) (o : Oracle) (us1 us2 : List Update)
    (sk : St × Nat) :
    runUpdates admin o (us1 ++ us2) sk = runUpdates admin o us2 (runUpdates admin o us1 sk) := by
  induction us1 generalizing sk with
  | nil => rfl
  | cons u us ih => simp [runUpdates, ih]

theorem runUpdates_preserves (admin : Int) (o : Oracle) (st0 : St)
    (hinj : ∀ i j, o.mid i = o.mid j → i = j)
    (hfreshU : ∀ j, mapGet st0.user_message_map (o.mid j) = none)
    (hfreshR : ∀ j, mapGet st0.reply_message_map (o.mid j) = none) :
    ∀ us st k, keysBounded o st0 st k →
      (∀ key v, mapGet st.user_message_map key = some v →
        mapGet (runUpdates admin o us (st, k)).1.user_message_map key = some v)
      ∧ (∀ key v, mapGet st.reply_message_map key = some v →
        mapGet (runUpdates admin o us (st, k)).1.reply_message_map key = some v)
      ∧ keysBounded o st0 (runUpdates admin o us (st, k)).1
          (runUpdates admin o us (st, k)).2 := by
  intro us
  induction us with
  | nil => exact fun st k hkb => ⟨fun _ _ h => h, fun _ _ h => h, hkb⟩
  | cons u us ih =>
    intro st k hkb
    obtain ⟨pU, pR, hkb2, hk⟩ := dispatch_preserves admin o k u st st0 hinj hfreshU hfreshR hkb
    obtain ⟨qU, qR, hkb3⟩ := ih (dispatch admin o k u st).2 (dispatch admin o k u st).1.k hkb2
    exact ⟨fun key v h => qU key v (pU key v h),
      fun key v h => qR key v (pR key v h), hkb3⟩

/-- C8: assuming the platform delivers pairwise-distinct outbound message
ids, the correlation tables only grow: any binding present in either table
at any point of a run of the event loop is still present, with the same
value, after any further events — no entry is deleted and no value is
rebound. -/
theorem correlation_entries_persist (admin : Int) (o : Oracle) (st0 : St) (k0 : Nat)
    (hinj : ∀ i j, o.mid i = o.mid j → i = j)
    (hfreshU : ∀ j, mapGet st0.user_message_map (o.mid j) = none)
    (hfreshR : ∀ j, mapGet st0.reply_message_map (o.mid j) = none) :
    ∀ us1 us2 key v,
      (mapGet (runUpdates admin o us1 (st0, k0)).1.user_message_map key = some v →
        mapGet (runUpdates admin o (us1 ++ us2) (st0, k0)).1.user_message_map key = some v)
      ∧ (mapGet (runUpdates admin o us1 (st0, k0)).1.reply_message_map key = some v →
        mapGet (runUpdates admin o (us1 ++ us2) (st0, k0)).1.reply_message_map key = some v) := by
  intro us1 us2 key v
  have hkb0 : keysBounded o st0 st0 k0 :=
    ⟨fun key h => Or.inl h, fun key h => Or.inl h⟩
  have h1 := runUpdates_preserves admin o st0 hinj hfreshU hfreshR us1 st0 k0 hkb0
  have h2 := runUpdates_preserves admin o st0 hinj hfreshU hfreshR us2
    (runUpdates admin o us1 (st0, k0)).1 (runUpdates admin o us1 (st0, k0)).2 h1.2.2
  rw [runUpdates_append]
  exact ⟨fun h => h2.1 key v h, fun h => h2.2.1 key v h⟩

theorem correlation_entries_persist_witness :
    mapGet (runUpdates (-1001) w_ok [Update.msg w_user_msg]
      (w_st0, 0)).1.user_message_map 1 = some 5
    ∧ mapGet (runUpdates (-1001) w_ok ([Update.msg w_user_msg] ++ [Update.msg w_user_msg2])
      (w_st0, 0)).1.user_message_map 1 = some 5 := by
  have hinj : ∀ i j, w_ok.mid i = w_ok.mid j → i = j := by
    intro i j h
    simpa [w_ok] using h
  have hfreshU : ∀ j, mapGet w_st0.user_message_map (w_ok.mid j) = none := by
    intro j
    have hne : (1 : Nat) ≠ 900 + j := by omega
    simp [w_st0, w_ok, mapGet, hne]
  have hfreshR : ∀ j, mapGet w_st0.reply_message_map (w_ok.mid j) = none := by
    intro j
    have hne : (2 : Nat) ≠ 900 + j := by omega
    simp [w_st0, w_ok, mapGet, hne]
  have hpre : mapGet (runUpdates (-1001) w_ok [Update.msg w_user_msg]
      (w_st0, 0)).1.user_message_map 1 = some 5 := by decide
  exact ⟨hpre, (correlation_entries_persist (-1001) w_ok w_st0 0 hinj hfreshU hfreshR
    [Update.msg w_user_msg] [Update.msg w_user_msg2] 1 5).1 hpre⟩

end SalesBot
